import Mathlib

/-!
Verification of the Instagram recipe-extractor service
(`src/instagram-service/main.py`) against its specification.

The service is embedded shallowly: the two external collaborators — the
Convex credential registry and the Instagram client library — are modelled
by an `Env` record holding the outcome each remote call would have on this
request, and every function of the service becomes a pure Lean function
returning its Python result together with the ordered trace of remote
calls (`Event`s) it performs.  Machine behaviour of the Python code
(truthiness of strings, exception classification by type, try/except
swallowing) is translated explicitly.
-/

namespace InstagramService

/-- An Instagram account record as returned by the Convex query
`instagramAccounts:getNextAccount` (fields read at `main.py` lines 247-250). -/
structure Account where
  accountId : String
  username : String
  password : String
  proxyUrl : Option String
  deriving DecidableEq

/-- The author object attached to a media record (`media.user`). -/
structure MediaUser where
  username : String
  deriving DecidableEq

/-- The media record returned by `client.media_info` — exactly the fields the
service reads (`main.py` lines 432, 449, 476-484, 499). -/
structure Media where
  code : String
  caption_text : Option String
  media_type : Nat
  video_url : Option String
  thumbnail_url : Option String
  user : Option MediaUser
  deriving DecidableEq

/-- A comment object returned by `client.media_comments`. -/
structure Comment where
  text : String
  deriving DecidableEq

/-- Outcome of `client.login` for this request, classified by the exception
type the instagrapi call would raise (`main.py` lines 262-281). -/
inductive LoginOutcome where
  | ok
  | loginRequired (msg : String)
  | challengeRequired (msg : String)
  | otherError (msg : String)
  deriving DecidableEq

/-- Outcome of the metadata fetch (`client.media_pk_from_code` followed by
`client.media_info`, one `try` block at `main.py` lines 427-445), classified
by exception type. -/
inductive MediaFetchOutcome where
  | ok (media : Media)
  | pleaseWaitFewMinutes (msg : String)
  | clientError (msg : String)
  | otherError (msg : String)
  deriving DecidableEq

/-- The environment of one request: the outcome every external call would
have.  `getNextAccount` is the Convex query result (`error` = the HTTP call
itself raised); `mediaComments` carries the platform's full comment sequence
for the post on success; the two `Bool`s say whether the corresponding Convex
mutation succeeds (its failure is swallowed by the service). -/
structure Env where
  getNextAccount : Except String (Option Account)
  login : LoginOutcome
  mediaFetch : MediaFetchOutcome
  mediaComments : Except String (List Comment)
  updateLastUsedOk : Bool
  updateAccountStatusOk : Bool

/-- One remote call performed by the service, in program order. -/
inductive Event where
  | convexGetNextAccount
  | igLogin (username : String)
  | igMediaFetch (shortcode : String)
  | igMediaComments
  | convexUpdateLastUsed (accountId : String)
  | convexUpdateAccountStatus (accountId : String) (status : String) (isActive : Option Bool)
  deriving DecidableEq

/-- `hay` begins with `pat`. -/
def leadsWith : List Char → List Char → Bool
  | _, [] => true
  | [], _ :: _ => false
  | c :: cs, p :: ps => c = p && leadsWith cs ps

/-- `pat` occurs as a contiguous run inside the second list (Python's
`needle in haystack` on strings). -/
def containsChars (pat : List Char) : List Char → Bool
  | [] => leadsWith [] pat
  | c :: hs => leadsWith (c :: hs) pat || containsChars pat hs

/-- Python's `'instagram.com' in url` (`main.py` line 398). -/
def urlHasInstagramDomain (url : String) : Bool :=
  containsChars "instagram.com".toList url.toList

/-- Python's `str.split(sep)` for a one-character separator. -/
def splitOnChar (sep : Char) : List Char → List (List Char)
  | [] => [[]]
  | c :: cs =>
    match splitOnChar sep cs with
    | r :: rs => if c = sep then [] :: r :: rs else (c :: r) :: rs
    | [] => if c = sep then [[], []] else [[c]]

/-- Python's `str.rstrip('/')`. -/
def rstripSlashes (cs : List Char) : List Char :=
  (cs.reverse.dropWhile (fun c => c = '/')).reverse

/-- The scan of `extract_media_id_from_url` (`main.py` lines 321-323): the
first part equal to `reel`, `p` or `tv` that has a successor yields that
successor. -/
def findMediaId : List String → Option String
  | a :: b :: rest =>
    if a = "reel" || a = "p" || a = "tv" then some b else findMediaId (b :: rest)
  | _ => none

/-- `extract_media_id_from_url` (`main.py` lines 283-327): strip the query
string, strip trailing slashes, split on `/`, return the segment after the
first `reel`/`p`/`tv` segment; otherwise raise `ValueError` (whose message is
wrapped once more by the outer `except`). -/
def extract_media_id_from_url (url : String) : Except String String :=
  let clean_url := (splitOnChar '?' url.toList).headD []
  let parts := (splitOnChar '/' (rstripSlashes clean_url)).map (fun cs => String.mk cs)
  match findMediaId parts with
  | some code => Except.ok code
  | none => Except.error "Invalid Instagram URL format: Could not extract media ID from URL"

/-- The Convex mutation `instagramAccounts:updateLastUsed` as fired by
`update_instagram_account_usage`: emits the remote call and succeeds or
fails according to the environment. -/
def convex_mutation_updateLastUsed (env : Env) (account_id : String) :
    Except String Unit × List Event :=
  ((if env.updateLastUsedOk then Except.ok () else Except.error "mutation failed"),
   [Event.convexUpdateLastUsed account_id])

/-- `update_instagram_account_usage` (`main.py` lines 155-175): call the
mutation; on failure print and do not raise. -/
def update_instagram_account_usage (env : Env) (account_id : String) : List Event :=
  match convex_mutation_updateLastUsed env account_id with
  | (Except.ok _, evts) => evts
  | (Except.error _, evts) => evts

/-- The Convex mutation `instagramAccounts:updateAccountStatus` as fired by
`update_instagram_account_status`. -/
def convex_mutation_updateAccountStatus (env : Env) (account_id status : String)
    (isActive : Option Bool) : Except String Unit × List Event :=
  ((if env.updateAccountStatusOk then Except.ok () else Except.error "mutation failed"),
   [Event.convexUpdateAccountStatus account_id status isActive])

/-- `update_instagram_account_status` (`main.py` lines 177-210): call the
mutation; on failure print and do not raise. -/
def update_instagram_account_status (env : Env) (account_id status : String)
    (is_active : Option Bool) : List Event :=
  match convex_mutation_updateAccountStatus env account_id status is_active with
  | (Except.ok _, evts) => evts
  | (Except.error _, evts) => evts

/-- `get_instagram_account_from_convex` (`main.py` lines 121-153): run the
Convex query, re-raising any failure unchanged. -/
def get_instagram_account_from_convex (env : Env) :
    Except String (Option Account) × List Event :=
  (env.getNextAccount, [Event.convexGetNextAccount])

/-- Result of `get_instagram_client_with_rotation`, classified the way the
Python call site distinguishes its exceptions. -/
inductive AuthResult where
  | ok (account_id : String)
  | noAccounts (msg : String)
  | convexError (msg : String)
  | loginRequired (msg : String)
  | challengeRequired (msg : String)
  | otherError (msg : String)
  deriving DecidableEq

/-- `get_instagram_client_with_rotation` (`main.py` lines 212-281): pull the
next account (raising `ValueError` when none), log in, and on a classified
login failure report the health transition to Convex before re-raising. -/
def get_instagram_client_with_rotation (env : Env) : AuthResult × List Event :=
  match get_instagram_account_from_convex env with
  | (Except.error e, evts) => (AuthResult.convexError e, evts)
  | (Except.ok none, evts) =>
    (AuthResult.noAccounts "No Instagram accounts available. Please add accounts to Convex.",
     evts)
  | (Except.ok (some account), evts) =>
    match env.login with
    | LoginOutcome.ok =>
      (AuthResult.ok account.accountId, evts ++ [Event.igLogin account.username])
    | LoginOutcome.loginRequired msg =>
      (AuthResult.loginRequired msg,
       evts ++ [Event.igLogin account.username] ++
         update_instagram_account_status env account.accountId "login_failed" (some false))
    | LoginOutcome.challengeRequired msg =>
      (AuthResult.challengeRequired msg,
       evts ++ [Event.igLogin account.username] ++
         update_instagram_account_status env account.accountId "banned" (some false))
    | LoginOutcome.otherError msg =>
      (AuthResult.otherError msg, evts ++ [Event.igLogin account.username])

/-- Modelled from the spec: the platform capability
`fetchComments(internalRef, limit)` returns at most `limit` comments; the
repository's `client.media_comments(media_pk, amount=50)` is this capability
applied to the platform's full comment sequence with `limit = 50`. -/
def media_comments (comments : List Comment) (amount : Nat) : List Comment :=
  comments.take amount

/-- Steps 5 of `extract_instagram` (`main.py` lines 451-471): fetch up to 50
comments and keep the non-empty texts; any failure leaves the list empty. -/
def comments_step (env : Env) : List String :=
  match env.mediaComments with
  | Except.ok comments =>
    ((media_comments comments 50).filter (fun c => c.text != "")).map Comment.text
  | Except.error _ => []

/-- The JSON payload of a successful `/extract-instagram` response
(`main.py` lines 491-500). -/
structure ExtractionResult where
  success : Bool
  caption : String
  comments : List String
  videoUrl : Option String
  thumbnailUrl : Option String
  postUrl : String
  username : String
  mediaType : String
  deriving DecidableEq

/-- The full response of `extract_instagram`, one constructor per distinct
`return jsonify(...)` site of the endpoint. -/
inductive ExtractResponse where
  | missingUrl
  | invalidUrl
  | parseError (msg : String)
  | noAccountsAvailable (msg : String)
  | loginFailed (msg : String)
  | challenged (msg : String)
  | authFailed (msg : String)
  | rateLimited (msg : String)
  | notFound (msg : String)
  | fetchError (msg : String)
  | success (result : ExtractionResult)
  deriving DecidableEq

/-- The HTTP status code each response site attaches (`main.py` lines
395-504). -/
def statusCode : ExtractResponse → Nat
  | ExtractResponse.missingUrl => 400
  | ExtractResponse.invalidUrl => 400
  | ExtractResponse.parseError _ => 400
  | ExtractResponse.noAccountsAvailable _ => 503
  | ExtractResponse.loginFailed _ => 401
  | ExtractResponse.challenged _ => 403
  | ExtractResponse.authFailed _ => 500
  | ExtractResponse.rateLimited _ => 429
  | ExtractResponse.notFound _ => 404
  | ExtractResponse.fetchError _ => 500
  | ExtractResponse.success _ => 200

/-- The responses the spec's taxonomy classifies as `InvalidInput`: the
client-input errors the endpoint answers with HTTP 400. -/
def isInvalidInput : ExtractResponse → Bool
  | ExtractResponse.missingUrl => true
  | ExtractResponse.invalidUrl => true
  | ExtractResponse.parseError _ => true
  | _ => false

/-- `extract_instagram` (`main.py` lines 334-504): validate the URL, parse
the shortcode, authenticate with rotation, fetch metadata and comments and
assemble the result, reporting usage on full success.  The second component
is the ordered trace of remote calls performed. -/
def extract_instagram (url : String) (env : Env) : ExtractResponse × List Event :=
  if url = "" then (ExtractResponse.missingUrl, [])
  else if urlHasInstagramDomain url = false then (ExtractResponse.invalidUrl, [])
  else
    match extract_media_id_from_url url with
    | Except.error e => (ExtractResponse.parseError e, [])
    | Except.ok media_shortcode =>
      match get_instagram_client_with_rotation env with
      | (AuthResult.noAccounts msg, evts) =>
        (ExtractResponse.noAccountsAvailable ("No Instagram accounts available: " ++ msg), evts)
      | (AuthResult.loginRequired msg, evts) =>
        (ExtractResponse.loginFailed ("Instagram login failed: " ++ msg), evts)
      | (AuthResult.challengeRequired msg, evts) =>
        (ExtractResponse.challenged ("Instagram account requires verification: " ++ msg), evts)
      | (AuthResult.convexError msg, evts) =>
        (ExtractResponse.authFailed ("Instagram authentication failed: " ++ msg), evts)
      | (AuthResult.otherError msg, evts) =>
        (ExtractResponse.authFailed ("Instagram authentication failed: " ++ msg), evts)
      | (AuthResult.ok account_id, evts) =>
        match env.mediaFetch with
        | MediaFetchOutcome.pleaseWaitFewMinutes msg =>
          (ExtractResponse.rateLimited ("Instagram rate limit reached: " ++ msg),
           evts ++ [Event.igMediaFetch media_shortcode] ++
             update_instagram_account_status env account_id "rate_limited" (some false))
        | MediaFetchOutcome.clientError msg =>
          (ExtractResponse.notFound ("Failed to fetch Instagram post: " ++ msg),
           evts ++ [Event.igMediaFetch media_shortcode])
        | MediaFetchOutcome.otherError msg =>
          (ExtractResponse.fetchError ("Unexpected error fetching post: " ++ msg),
           evts ++ [Event.igMediaFetch media_shortcode])
        | MediaFetchOutcome.ok media =>
          (ExtractResponse.success {
             success := true
             caption := media.caption_text.getD ""
             comments := comments_step env
             videoUrl := if media.media_type = 2 then media.video_url else none
             thumbnailUrl := media.thumbnail_url
             postUrl := url
             username := match media.user with
               | some u => u.username
               | none => "unknown"
             mediaType := if media.media_type = 2 then "video" else "photo" },
           evts ++ [Event.igMediaFetch media_shortcode] ++ [Event.igMediaComments] ++
             update_instagram_account_usage env account_id)

/-- Is this event a usage-report call (`updateLastUsed`)? -/
def Event.isUsageReport : Event → Bool
  | Event.convexUpdateLastUsed _ => true
  | _ => false

/-- Is this event a status-transition call (`updateAccountStatus`)? -/
def Event.isStatusReport : Event → Bool
  | Event.convexUpdateAccountStatus _ _ _ => true
  | _ => false

/-- Is this event a call to the remote platform (login or fetch)? -/
def Event.isPlatformCall : Event → Bool
  | Event.igLogin _ => true
  | Event.igMediaFetch _ => true
  | Event.igMediaComments => true
  | _ => false

def accountW : Account :=
  { accountId := "acc1",
    username := "alice",
    password := "pw",
    proxyUrl := none }

def mediaW : Media :=
  { code := "A",
    caption_text := some "yum",
    media_type := 2,
    video_url := some "v1",
    thumbnail_url := some "t1",
    user := some { username := "chef" } }

def envOkW : Env :=
  { getNextAccount := Except.ok (some accountW),
    login := LoginOutcome.ok,
    mediaFetch := MediaFetchOutcome.ok mediaW,
    mediaComments := Except.ok [{ text := "hi" }, { text := "" }, { text := "good" }],
    updateLastUsedOk := true,
    updateAccountStatusOk := true }

def envLoginReqW : Env :=
  { getNextAccount := Except.ok (some accountW),
    login := LoginOutcome.loginRequired "bad password",
    mediaFetch := MediaFetchOutcome.ok mediaW,
    mediaComments := Except.ok [],
    updateLastUsedOk := true,
    updateAccountStatusOk := true }

def envChallengeW : Env :=
  { envLoginReqW with login := LoginOutcome.challengeRequired "challenge" }

def envAuthOtherW : Env :=
  { envLoginReqW with login := LoginOutcome.otherError "boom" }

def urlW : String := "x.instagram.com/p/A?q"

def envRateW : Env :=
  { getNextAccount := Except.ok (some accountW),
    login := LoginOutcome.ok,
    mediaFetch := MediaFetchOutcome.pleaseWaitFewMinutes "wait",
    mediaComments := Except.ok [],
    updateLastUsedOk := true,
    updateAccountStatusOk := true }

def envCommentsFailW : Env :=
  { getNextAccount := Except.ok (some accountW),
    login := LoginOutcome.ok,
    mediaFetch := MediaFetchOutcome.ok mediaW,
    mediaComments := Except.error "comments disabled",
    updateLastUsedOk := true,
    updateAccountStatusOk := true }

def envNoAccW : Env :=
  { getNextAccount := Except.ok none,
    login := LoginOutcome.ok,
    mediaFetch := MediaFetchOutcome.ok mediaW,
    mediaComments := Except.ok [],
    updateLastUsedOk := true,
    updateAccountStatusOk := true }

def payloadW : ExtractionResult :=
  { success := true,
    caption := "yum",
    comments := ["hi", "good"],
    videoUrl := some "v1",
    thumbnailUrl := some "t1",
    postUrl := urlW,
    username := "chef",
    mediaType := "video" }

def traceW : List Event :=
  [Event.convexGetNextAccount, Event.igLogin "alice", Event.igMediaFetch "A",
   Event.igMediaComments, Event.convexUpdateLastUsed "acc1"]

def urlBadW : String := "https://example.com/x"

def mediaPhotoW : Media :=
  { code := "A",
    caption_text := none,
    media_type := 1,
    video_url := some "v1",
    thumbnail_url := some "t1",
    user := none }

def envPhotoW : Env :=
  { envOkW with mediaFetch := MediaFetchOutcome.ok mediaPhotoW }

def payloadPhotoW : ExtractionResult :=
  { success := true,
    caption := "",
    comments := ["hi", "good"],
    videoUrl := none,
    thumbnailUrl := some "t1",
    postUrl := urlW,
    username := "unknown",
    mediaType := "photo" }

def envManyW : Env :=
  { envOkW with mediaComments := Except.ok (List.replicate 60 { text := "c" }) }

def payloadManyW : ExtractionResult :=
  { payloadW with comments := List.replicate 50 "c" }

example : extract_media_id_from_url "https://www.instagram.com/reel/ABC123/?igsh=xyz" = Except.ok "ABC123" := rfl

example : extract_media_id_from_url "x.instagram.com/p/A?q" = Except.ok "A" := rfl

example : extract_media_id_from_url "https://www.instagram.com/reel" = Except.error "Invalid Instagram URL format: Could not extract media ID from URL" := rfl

example : urlHasInstagramDomain "https://example.com/x" = false := by decide

example : urlHasInstagramDomain "x.instagram.com/p/A?q" = true := by decide

example : extract_instagram "x.instagram.com/p/A?q" envOkW =
  (ExtractResponse.success
    { success := true,
      caption := "yum",
      comments := ["hi", "good"],
      videoUrl := some "v1",
      thumbnailUrl := some "t1",
      postUrl := "x.instagram.com/p/A?q",
      username := "chef",
      mediaType := "video" },
   [Event.convexGetNextAccount, Event.igLogin "alice", Event.igMediaFetch "A",
    Event.igMediaComments, Event.convexUpdateLastUsed "acc1"]) := rfl

/-- The usage-report helper always performs exactly its one mutation call and
returns normally whether or not the remote write succeeds. -/
theorem update_usage_events (env : Env) (account_id : String) :
    update_instagram_account_usage env account_id =
      [Event.convexUpdateLastUsed account_id] := by
  cases h : env.updateLastUsedOk <;>
    simp [update_instagram_account_usage, convex_mutation_updateLastUsed, h]

/-- The status-report helper always performs exactly its one mutation call and
returns normally whether or not the remote write succeeds. -/
theorem update_status_events (env : Env) (account_id status : String) (is_active : Option Bool) :
    update_instagram_account_status env account_id status is_active =
      [Event.convexUpdateAccountStatus account_id status is_active] := by
  cases h : env.updateAccountStatusOk <;>
    simp [update_instagram_account_status, convex_mutation_updateAccountStatus, h]

/-- C1: every login attempt is classified per the spec table: `LoginRequired`
writes status `login_failed` with deactivate, then propagates;
`ChallengeRequired` writes status `banned` with deactivate, then propagates;
any other login failure performs no status write and propagates generically.
The status write appears in the trace of the very call that propagates the
error, so it reaches the credential store before the caller sees the failure. -/
theorem C1_login_failure_classification (env : Env) (a : Account)
    (hacc : env.getNextAccount = Except.ok (some a)) :
    (∀ msg, env.login = LoginOutcome.loginRequired msg →
      get_instagram_client_with_rotation env =
        (AuthResult.loginRequired msg,
         [Event.convexGetNextAccount, Event.igLogin a.username,
          Event.convexUpdateAccountStatus a.accountId "login_failed" (some false)])) ∧
    (∀ msg, env.login = LoginOutcome.challengeRequired msg →
      get_instagram_client_with_rotation env =
        (AuthResult.challengeRequired msg,
         [Event.convexGetNextAccount, Event.igLogin a.username,
          Event.convexUpdateAccountStatus a.accountId "banned" (some false)])) ∧
    (∀ msg, env.login = LoginOutcome.otherError msg →
      get_instagram_client_with_rotation env =
        (AuthResult.otherError msg,
         [Event.convexGetNextAccount, Event.igLogin a.username])) := by
  refine ⟨?_, ?_, ?_⟩ <;> intro msg hl <;>
    simp [get_instagram_client_with_rotation, get_instagram_account_from_convex,
      hacc, hl, update_status_events]

/-- C1 witness: the three classifications at concrete environments. -/
theorem C1_login_failure_classification_witness :
    get_instagram_client_with_rotation envLoginReqW =
      (AuthResult.loginRequired "bad password",
       [Event.convexGetNextAccount, Event.igLogin "alice",
        Event.convexUpdateAccountStatus "acc1" "login_failed" (some false)]) ∧
    get_instagram_client_with_rotation envChallengeW =
      (AuthResult.challengeRequired "challenge",
       [Event.convexGetNextAccount, Event.igLogin "alice",
        Event.convexUpdateAccountStatus "acc1" "banned" (some false)]) ∧
    get_instagram_client_with_rotation envAuthOtherW =
      (AuthResult.otherError "boom",
       [Event.convexGetNextAccount, Event.igLogin "alice"]) :=
  ⟨(C1_login_failure_classification envLoginReqW accountW rfl).1 "bad password" rfl,
   (C1_login_failure_classification envChallengeW accountW rfl).2.1 "challenge" rfl,
   (C1_login_failure_classification envAuthOtherW accountW rfl).2.2 "boom" rfl⟩

/-- C2: when the metadata fetch raises the explicit rate-limit signal, the
account in use gets a status write `rate_limited` with deactivate, and the
request fails with the rate-limited response; no success result is returned. -/
theorem C2_rate_limit_marks_account_and_fails (url : String) (env : Env) (a : Account)
    (sc msg : String)
    (hne : url ≠ "") (hdom : urlHasInstagramDomain url = true)
    (hsc : extract_media_id_from_url url = Except.ok sc)
    (hacc : env.getNextAccount = Except.ok (some a))
    (hlogin : env.login = LoginOutcome.ok)
    (hmf : env.mediaFetch = MediaFetchOutcome.pleaseWaitFewMinutes msg) :
    extract_instagram url env =
      (ExtractResponse.rateLimited ("Instagram rate limit reached: " ++ msg),
       [Event.convexGetNextAccount, Event.igLogin a.username, Event.igMediaFetch sc,
        Event.convexUpdateAccountStatus a.accountId "rate_limited" (some false)]) := by
  simp [extract_instagram, hne, hdom, hsc, get_instagram_client_with_rotation,
    get_instagram_account_from_convex, hacc, hlogin, hmf, update_status_events]

/-- C2 witness: a concrete rate-limited request. -/
theorem C2_rate_limit_marks_account_and_fails_witness :
    extract_instagram urlW envRateW =
      (ExtractResponse.rateLimited ("Instagram rate limit reached: " ++ "wait"),
       [Event.convexGetNextAccount, Event.igLogin "alice", Event.igMediaFetch "A",
        Event.convexUpdateAccountStatus "acc1" "rate_limited" (some false)]) :=
  C2_rate_limit_marks_account_and_fails urlW envRateW accountW "A" "wait"
    (by decide) (by decide) rfl rfl rfl rfl

/-- C4: a failing comment fetch never aborts the request: the result is still
a success whose comments are empty, with every other field exactly as on the
normal path, and usage is still reported. -/
theorem C4_comment_failure_nonfatal (url : String) (env : Env) (a : Account)
    (sc e : String) (media : Media)
    (hne : url ≠ "") (hdom : urlHasInstagramDomain url = true)
    (hsc : extract_media_id_from_url url = Except.ok sc)
    (hacc : env.getNextAccount = Except.ok (some a))
    (hlogin : env.login = LoginOutcome.ok)
    (hmf : env.mediaFetch = MediaFetchOutcome.ok media)
    (hcf : env.mediaComments = Except.error e) :
    extract_instagram url env =
      (ExtractResponse.success
        { success := true,
          caption := media.caption_text.getD "",
          comments := [],
          videoUrl := if media.media_type = 2 then media.video_url else none,
          thumbnailUrl := media.thumbnail_url,
          postUrl := url,
          username := match media.user with
            | some u => u.username
            | none => "unknown",
          mediaType := if media.media_type = 2 then "video" else "photo" },
       [Event.convexGetNextAccount, Event.igLogin a.username, Event.igMediaFetch sc,
        Event.igMediaComments, Event.convexUpdateLastUsed a.accountId]) := by
  simp [extract_instagram, hne, hdom, hsc, get_instagram_client_with_rotation,
    get_instagram_account_from_convex, hacc, hlogin, hmf, comments_step, hcf,
    update_usage_events]

/-- C4 witness: a concrete request whose comment fetch fails. -/
theorem C4_comment_failure_nonfatal_witness :
    extract_instagram urlW envCommentsFailW =
      (ExtractResponse.success
        { success := true,
          caption := mediaW.caption_text.getD "",
          comments := [],
          videoUrl := if mediaW.media_type = 2 then mediaW.video_url else none,
          thumbnailUrl := mediaW.thumbnail_url,
          postUrl := urlW,
          username := match mediaW.user with
            | some u => u.username
            | none => "unknown",
          mediaType := if mediaW.media_type = 2 then "video" else "photo" },
       [Event.convexGetNextAccount, Event.igLogin "alice", Event.igMediaFetch "A",
        Event.igMediaComments, Event.convexUpdateLastUsed "acc1"]) :=
  C4_comment_failure_nonfatal urlW envCommentsFailW accountW "A" "comments disabled" mediaW
    (by decide) (by decide) rfl rfl rfl rfl rfl

/-- C5: failure of either best-effort credential-store write (usage report or
status report) is absorbed: the whole observable behaviour of the request —
response and call trace alike — is independent of whether those writes
succeed. -/
theorem C5_report_failures_absorbed (url : String) (env : Env) (b1 b2 : Bool) :
    extract_instagram url
        { env with updateLastUsedOk := b1, updateAccountStatusOk := b2 } =
      extract_instagram url env := by
  obtain ⟨gn, lo, mf, mc, u1, s1⟩ := env
  simp only [extract_instagram, get_instagram_client_with_rotation,
    get_instagram_account_from_convex, comments_step, update_usage_events,
    update_status_events]

/-- C6: with no eligible account in the registry the request fails with the
service-unavailable "no accounts" response — classified 503, not a client
input error — after the single registry read and zero platform calls. -/
theorem C6_no_accounts_no_platform_calls (url : String) (env : Env) (sc : String)
    (hne : url ≠ "") (hdom : urlHasInstagramDomain url = true)
    (hsc : extract_media_id_from_url url = Except.ok sc)
    (hacc : env.getNextAccount = Except.ok none) :
    extract_instagram url env =
      (ExtractResponse.noAccountsAvailable
        ("No Instagram accounts available: " ++
          "No Instagram accounts available. Please add accounts to Convex."),
       [Event.convexGetNextAccount]) ∧
    statusCode (extract_instagram url env).1 = 503 ∧
    isInvalidInput (extract_instagram url env).1 = false ∧
    (extract_instagram url env).2.filter Event.isPlatformCall = [] := by
  have h1 : extract_instagram url env =
      (ExtractResponse.noAccountsAvailable
        ("No Instagram accounts available: " ++
          "No Instagram accounts available. Please add accounts to Convex."),
       [Event.convexGetNextAccount]) := by
    simp [extract_instagram, hne, hdom, hsc, get_instagram_client_with_rotation,
      get_instagram_account_from_convex, hacc]
  refine ⟨h1, ?_, ?_, ?_⟩ <;>
    rw [h1] <;> simp [statusCode, isInvalidInput, Event.isPlatformCall]

/-- C6 witness: a concrete request against an empty registry. -/
theorem C6_no_accounts_no_platform_calls_witness :
    extract_instagram urlW envNoAccW =
      (ExtractResponse.noAccountsAvailable
        ("No Instagram accounts available: " ++
          "No Instagram accounts available. Please add accounts to Convex."),
       [Event.convexGetNextAccount]) ∧
    statusCode (extract_instagram urlW envNoAccW).1 = 503 ∧
    isInvalidInput (extract_instagram urlW envNoAccW).1 = false ∧
    (extract_instagram urlW envNoAccW).2.filter Event.isPlatformCall = [] :=
  C6_no_accounts_no_platform_calls urlW envNoAccW "A" (by decide) (by decide) rfl rfl

/-- Any request that returns a success response did so along the unique
success path: an account was fetched, login succeeded, the metadata fetch
succeeded, and the payload and call trace have the canonical shape. -/
theorem extract_success_shape (url : String) (env : Env) (p : ExtractionResult)
    (t : List Event)
    (h : extract_instagram url env = (ExtractResponse.success p, t)) :
    ∃ a media sc,
      env.getNextAccount = Except.ok (some a) ∧
      env.login = LoginOutcome.ok ∧
      env.mediaFetch = MediaFetchOutcome.ok media ∧
      extract_media_id_from_url url = Except.ok sc ∧
      p = { success := true,
            caption := media.caption_text.getD "",
            comments := comments_step env,
            videoUrl := if media.media_type = 2 then media.video_url else none,
            thumbnailUrl := media.thumbnail_url,
            postUrl := url,
            username := match media.user with
              | some u => u.username
              | none => "unknown",
            mediaType := if media.media_type = 2 then "video" else "photo" } ∧
      t = [Event.convexGetNextAccount, Event.igLogin a.username, Event.igMediaFetch sc,
           Event.igMediaComments, Event.convexUpdateLastUsed a.accountId] := by
  by_cases h0 : url = ""
  · simp [extract_instagram, h0] at h
  cases hdom : urlHasInstagramDomain url with
  | false => simp [extract_instagram, h0, hdom] at h
  | true =>
    cases hsc : extract_media_id_from_url url with
    | error e => simp [extract_instagram, h0, hdom, hsc] at h
    | ok sc =>
      cases hacc : env.getNextAccount with
      | error e =>
        simp [extract_instagram, h0, hdom, hsc, get_instagram_client_with_rotation,
          get_instagram_account_from_convex, hacc] at h
      | ok oa =>
        cases oa with
        | none =>
          simp [extract_instagram, h0, hdom, hsc, get_instagram_client_with_rotation,
            get_instagram_account_from_convex, hacc] at h
        | some a =>
          cases hlo : env.login <;> cases hmf : env.mediaFetch <;>
            simp [extract_instagram, h0, hdom, hsc, get_instagram_client_with_rotation,
              get_instagram_account_from_convex, hacc, hlo, hmf,
              update_usage_events, update_status_events] at h
          rename_i media
          exact ⟨a, media, sc, rfl, rfl, rfl, rfl, h.1.symm, h.2.symm⟩

/-- C3: a request that completes successfully makes exactly one usage-report
call — for the account that was handed out — and zero status-transition
calls. -/
theorem C3_success_exactly_one_usage_report (url : String) (env : Env)
    (p : ExtractionResult) (t : List Event)
    (h : extract_instagram url env = (ExtractResponse.success p, t)) :
    ∃ a, env.getNextAccount = Except.ok (some a) ∧
      t.filter Event.isUsageReport = [Event.convexUpdateLastUsed a.accountId] ∧
      t.filter Event.isStatusReport = [] := by
  obtain ⟨a, media, sc, hacc, -, -, -, -, ht⟩ := extract_success_shape url env p t h
  subst ht
  exact ⟨a, hacc, by simp [Event.isUsageReport, Event.isStatusReport],
    by simp [Event.isUsageReport, Event.isStatusReport]⟩

/-- C3 witness: the frame condition at a concrete successful run. -/
theorem C3_success_exactly_one_usage_report_witness :
    ∃ a, envOkW.getNextAccount = Except.ok (some a) ∧
      traceW.filter Event.isUsageReport = [Event.convexUpdateLastUsed a.accountId] ∧
      traceW.filter Event.isStatusReport = [] :=
  C3_success_exactly_one_usage_report urlW envOkW payloadW traceW rfl

/-- C7: the request fails as a client input error exactly when the URL is not
on the Instagram domain or no media id can be parsed from it; in that case it
fails immediately, before any registry or platform call. -/
theorem C7_invalid_input_iff_bad_url (url : String) (env : Env) :
    (isInvalidInput (extract_instagram url env).1 = true ↔
      urlHasInstagramDomain url = false ∨
        ∃ e, extract_media_id_from_url url = Except.error e) ∧
    (isInvalidInput (extract_instagram url env).1 = true →
      (extract_instagram url env).2 = []) := by
  by_cases h0 : url = ""
  · subst h0
    refine ⟨⟨fun _ => Or.inl (by decide), fun _ => ?_⟩, fun _ => ?_⟩ <;>
      simp [extract_instagram, isInvalidInput]
  cases hdom : urlHasInstagramDomain url with
  | false =>
    refine ⟨⟨fun _ => Or.inl rfl, fun _ => ?_⟩, fun _ => ?_⟩ <;>
      simp [extract_instagram, h0, hdom, isInvalidInput]
  | true =>
    cases hsc : extract_media_id_from_url url with
    | error e =>
      refine ⟨⟨fun _ => Or.inr ⟨e, rfl⟩, fun _ => ?_⟩, fun _ => ?_⟩ <;>
        simp [extract_instagram, h0, hdom, hsc, isInvalidInput]
    | ok sc =>
      have hfalse : isInvalidInput (extract_instagram url env).1 = false := by
        cases hacc : env.getNextAccount with
        | error e2 =>
          simp [extract_instagram, h0, hdom, hsc, get_instagram_client_with_rotation,
            get_instagram_account_from_convex, hacc, isInvalidInput]
        | ok oa =>
          cases oa <;> cases hlo : env.login <;> cases hmf : env.mediaFetch <;>
            simp [extract_instagram, h0, hdom, hsc, get_instagram_client_with_rotation,
              get_instagram_account_from_convex, hacc, hlo, hmf, isInvalidInput,
              update_usage_events, update_status_events]
      refine ⟨⟨fun ht => ?_, fun hor => ?_⟩, fun ht => ?_⟩
      · rw [hfalse] at ht; cases ht
      · rcases hor with hdomf | ⟨e, he⟩
        · simp at hdomf
        · simp at he
      · rw [hfalse] at ht; cases ht

/-- C7 witness: a non-Instagram URL is rejected as invalid input with an
empty call trace. -/
theorem C7_invalid_input_iff_bad_url_witness :
    isInvalidInput (extract_instagram urlBadW envOkW).1 = true ∧
    (extract_instagram urlBadW envOkW).2 = [] :=
  ⟨(C7_invalid_input_iff_bad_url urlBadW envOkW).1.mpr (Or.inl (by decide)),
   (C7_invalid_input_iff_bad_url urlBadW envOkW).2
     ((C7_invalid_input_iff_bad_url urlBadW envOkW).1.mpr (Or.inl (by decide)))⟩

/-- C8: on every successful extraction the media kind is `video` exactly when
the type discriminator is the video code 2 (`photo` otherwise), the video URL
is exactly the platform one for video media and absent otherwise, and the
thumbnail URL is always the platform one. -/
theorem C8_media_kind_and_urls (url : String) (env : Env) (media : Media)
    (p : ExtractionResult) (t : List Event)
    (hmf : env.mediaFetch = MediaFetchOutcome.ok media)
    (h : extract_instagram url env = (ExtractResponse.success p, t)) :
    (p.mediaType = "video" ↔ media.media_type = 2) ∧
    (p.mediaType = "photo" ↔ media.media_type ≠ 2) ∧
    p.videoUrl = (if media.media_type = 2 then media.video_url else none) ∧
    p.thumbnailUrl = media.thumbnail_url := by
  obtain ⟨a, media2, sc, -, -, hmf2, -, hp, -⟩ := extract_success_shape url env p t h
  rw [hmf] at hmf2
  injection hmf2 with hme
  subst hme
  subst hp
  by_cases h2 : media.media_type = 2 <;> simp [h2]

/-- C8 witness: media-type code 1 with a platform-supplied video URL still
yields `photo` and no video URL. -/
theorem C8_media_kind_and_urls_witness :
    (payloadPhotoW.mediaType = "photo" ↔ mediaPhotoW.media_type ≠ 2) ∧
    payloadPhotoW.videoUrl =
      (if mediaPhotoW.media_type = 2 then mediaPhotoW.video_url else none) :=
  ⟨(C8_media_kind_and_urls urlW envPhotoW mediaPhotoW payloadPhotoW traceW rfl rfl).2.1,
   (C8_media_kind_and_urls urlW envPhotoW mediaPhotoW payloadPhotoW traceW rfl rfl).2.2.1⟩

/-- C9: the comment sequence of every successful extraction has at most 50
entries, however many comments the platform holds for the post. -/
theorem C9_comments_capped_at_50 (url : String) (env : Env)
    (p : ExtractionResult) (t : List Event)
    (h : extract_instagram url env = (ExtractResponse.success p, t)) :
    p.comments.length ≤ 50 := by
  obtain ⟨a, media, sc, -, -, -, -, hp, -⟩ := extract_success_shape url env p t h
  subst hp
  show (comments_step env).length ≤ 50
  cases hmc : env.mediaComments with
  | error e => simp [comments_step, hmc]
  | ok cs =>
    simp only [comments_step, hmc, media_comments, List.length_map]
    exact le_trans (List.length_filter_le _ _) (by rw [List.length_take]; omega)

/-- C9 witness: 60 platform comments come back as exactly 50. -/
theorem C9_comments_capped_at_50_witness :
    payloadManyW.comments.length ≤ 50 :=
  C9_comments_capped_at_50 urlW envManyW payloadManyW traceW (by rfl)

/-- C10: every comment string of a successful extraction is non-empty:
comments with empty text are filtered out before the result is assembled. -/
theorem C10_comments_nonempty (url : String) (env : Env)
    (p : ExtractionResult) (t : List Event)
    (h : extract_instagram url env = (ExtractResponse.success p, t)) :
    ∀ s ∈ p.comments, s ≠ "" := by
  obtain ⟨a, media, sc, -, -, -, -, hp, -⟩ := extract_success_shape url env p t h
  subst hp
  intro s hs
  have hs2 : s ∈ comments_step env := hs
  cases hmc : env.mediaComments with
  | error e => simp [comments_step, hmc] at hs2
  | ok cs =>
    simp only [comments_step, hmc, media_comments, List.mem_map, List.mem_filter,
      bne_iff_ne, ne_eq] at hs2
    obtain ⟨c, ⟨-, hc⟩, rfl⟩ := hs2
    exact hc

/-- C10 witness: the non-emptiness of concrete returned comments (the platform
list for `envOkW` contains an empty comment that is dropped). -/
theorem C10_comments_nonempty_witness : "hi" ≠ "" ∧ "good" ≠ "" :=
  ⟨C10_comments_nonempty urlW envOkW payloadW traceW rfl "hi" (by decide),
   C10_comments_nonempty urlW envOkW payloadW traceW rfl "good" (by decide)⟩

end InstagramService
